import Mathlib

/-!
Cinema tickets: `TicketService.purchaseTickets`.

A shallow embedding of `src/pairtest/TicketService.js`.

* JavaScript exceptions are values of `Error`; a method that can throw returns `Except Error _`.
* The instance fields written after construction (`requests`, `accountId`) form the record
  `TicketService`; every method takes the instance and, when it writes a field, returns the new one.
* The two third-party gateways are parameters (`Collaborators`); every invocation of one of them is
  recorded, oldest first, in a list of `Call`s. `Collaborators.thirdparty` is what the spec says of
  them.
* Ticket counts are integers (`Int`), negative ones included: nothing in `TicketService.js`
  excludes them.
-/

namespace CinemaTickets

/-! ## Values and errors -/

/-- The JavaScript values an `accountId` can take, as far as the service and its collaborators
tell them apart. -/
inductive JsValue where
  /-- The value of a field that was never assigned. -/
  | undefined
  /-- A number whose value is an integer. -/
  | number (n : Int)
  /-- A number that is not an integer (`1.5`, `NaN`, ...), identified by its source text. -/
  | nonInteger (text : String)
  /-- A string. -/
  | string (s : String)
deriving DecidableEq, Repr

/-- The exceptions that can leave `purchaseTickets`. -/
inductive Error where
  /-- The built-in `TypeError`. -/
  | typeError (message : String)
  /-- The class `InvalidPurchaseException` of `lib/InvalidPurchaseException.js`. -/
  | invalidPurchaseException (message : String)
  /-- Any other exception a collaborator raises. -/
  | other (message : String)
deriving DecidableEq, Repr

/-- An element `{type, noOfTickets}` of the array passed to `purchaseTickets`. -/
structure TicketTypeRequestInput where
  type : String
  noOfTickets : Int
deriving DecidableEq, Repr

/-- Immutable ticket request value (`lib/TicketTypeRequest.js`). -/
structure TicketTypeRequest where
  type : String
  noOfTickets : Int
deriving DecidableEq, Repr

namespace TicketTypeRequest

/-- The closed set of ticket types. -/
def ticketTypes : List String := ["ADULT", "CHILD", "INFANT"]

/-- Modelled from the spec: the constructor of `TicketTypeRequest` (`lib/TicketTypeRequest.js` is
not among the files embedded here). "Invalid `type` values are rejected at construction", with a
contract error (`TypeError`); the count is stored as given. The text of the message is not fixed by the
spec. -/
def new (type : String) (noOfTickets : Int) : Except Error TicketTypeRequest :=
  if type ∈ ticketTypes then .ok ⟨type, noOfTickets⟩
  else .error (.typeError "invalid ticket type")

def getNoOfTickets (self : TicketTypeRequest) : Int := self.noOfTickets

def getTicketType (self : TicketTypeRequest) : String := self.type

end TicketTypeRequest

/-! ## Collaborators -/

/-- The third-party gateways (`thirdparty/paymentgateway/TicketPaymentService.js` and
`thirdparty/seatbooking/SeatReservationService.js`): each either returns or raises. -/
structure Collaborators where
  makePayment : JsValue → Int → Except Error Unit
  reserveSeat : JsValue → Int → Except Error Unit

/-- One invocation of a collaborator, with its arguments. -/
inductive Call where
  | makePayment (accountId : JsValue) (totalAmountToPay : Int)
  | reserveSeat (accountId : JsValue) (totalSeatsToAllocate : Int)
deriving DecidableEq, Repr

/-! ## The service -/

/-- An element `{type, noOfTickets}` of `this.requests`. -/
structure Request where
  type : String
  noOfTickets : Int
deriving DecidableEq, Repr

/-- The mutable fields of a `TicketService` instance. -/
structure TicketService where
  requests : List Request
  accountId : JsValue
deriving DecidableEq, Repr

/-- What a method leaves behind: its result or the exception it threw, the instance afterwards, and
the collaborator invocations it made, oldest first. -/
structure Outcome (ρ : Type) where
  result : Except Error ρ
  service : TicketService
  calls : List Call

namespace TicketService

/-- The fields `maxTickets` ... `infantTicketAmount` are set by the constructor and never written
again. -/
def maxTickets : Int := 20
def minAdultTicket : Int := 1
def adultTicketAmount : Int := 20
def childTicketAmount : Int := 5
def infantTicketAmount : Int := 0

/-- The constructor: `this.requests = []`, and `this.accountId` not yet assigned. -/
def new : TicketService := { requests := [], accountId := .undefined }

/-- Method `#getNoOfTickets`: the count of the first stored request of the type, `0` when there is none. -/
def getNoOfTickets (self : TicketService) (ticketType : String) : Int :=
  match self.requests.find? (fun item => item.type == ticketType) with
  | none => 0
  | some request => request.noOfTickets

/-- Method `#validateMinimumNoOfAdultTicket`. -/
def validateMinimumNoOfAdultTicket (self : TicketService) : Except Error Unit :=
  let noOfAdultTickets := self.getNoOfTickets "ADULT"
  if noOfAdultTickets = 0 then
    .error (.invalidPurchaseException "You have to purchase at least one adult ticket")
  else if noOfAdultTickets < minAdultTicket then
    .error (.invalidPurchaseException
      "Child and Infant tickets cannot be purchased without purchasing an Adult ticket.")
  else .ok ()

/-- Method `#validateNoOfRequest`. -/
def validateNoOfRequest (self : TicketService) : Except Error Unit :=
  let noOfRequests := self.requests.foldl (fun acc curr => acc + curr.noOfTickets) 0
  if noOfRequests > maxTickets then
    .error (.invalidPurchaseException
      s!"Only a maximum of {maxTickets} tickets can be purchased at a time")
  else .ok ()

/-- Method `#validateInfantTicket`. -/
def validateInfantTicket (self : TicketService) : Except Error Unit :=
  let noOfAdultTickets := self.getNoOfTickets "ADULT"
  let noOfInfantTickets := self.getNoOfTickets "INFANT"
  if noOfAdultTickets < noOfInfantTickets then
    .error (.invalidPurchaseException
      "Number of Infant tickets cannot be greater than the Number of Adult tickets.")
  else .ok ()

/-- Method `#validateRequest`: the three validations, in the order of the source. -/
def validateRequest (self : TicketService) : Except Error Unit := do
  self.validateMinimumNoOfAdultTicket
  self.validateNoOfRequest
  self.validateInfantTicket

/-- Method `#makePayments`: one invocation of the payment gateway. -/
def makePayments (g : Collaborators) (accountId : JsValue) (totalAmountOfTickets : Int) :
    Except Error Unit × List Call :=
  (g.makePayment accountId totalAmountOfTickets, [.makePayment accountId totalAmountOfTickets])

/-- Method `#calcTotalTicketAmount`. -/
def calcTotalTicketAmount (g : Collaborators) (self : TicketService) :
    Except Error Unit × List Call :=
  let amountOfAdultTickets := self.getNoOfTickets "ADULT" * adultTicketAmount
  let amountOfInfantTickets := self.getNoOfTickets "INFANT" * infantTicketAmount
  let amountOfChildTickets := self.getNoOfTickets "CHILD" * childTicketAmount
  let totalAmountOfTickets := amountOfAdultTickets + amountOfChildTickets + amountOfInfantTickets
  makePayments g self.accountId totalAmountOfTickets

/-- Method `#getNoOfSeatToAllocate`. -/
def getNoOfSeatToAllocate (self : TicketService) : Int :=
  let noOfAdultSeats := self.getNoOfTickets "ADULT"
  let noOfChildSeats := self.getNoOfTickets "CHILD"
  let totalNoOfSeats := noOfAdultSeats + noOfChildSeats
  totalNoOfSeats

/-- Method `#reserveSeats`: one invocation of the seat gateway. -/
def reserveSeats (g : Collaborators) (self : TicketService) : Except Error Unit × List Call :=
  let noOfSeats := self.getNoOfSeatToAllocate
  (g.reserveSeat self.accountId noOfSeats, [.reserveSeat self.accountId noOfSeats])

/-- The `forEach` loop of `#ticketTypeRequest`: each element is turned into a `TicketTypeRequest`
and pushed onto `this.requests`; an exception of the constructor ends the loop and keeps what was
pushed so far. -/
def pushRequests (requests : List Request) :
    List TicketTypeRequestInput → Except Error Unit × List Request
  | [] => (.ok (), requests)
  | ticketType :: rest =>
    match TicketTypeRequest.new ticketType.type ticketType.noOfTickets with
    | .error e => (.error e, requests)
    | .ok newRequest =>
      pushRequests
        (requests ++ [{ type := newRequest.getTicketType,
                        noOfTickets := newRequest.getNoOfTickets }]) rest

/-- Method `#ticketTypeRequest`: push the requests, validate, pay, reserve. -/
def ticketTypeRequest (g : Collaborators) (self : TicketService)
    (ticketTypeRequests : List TicketTypeRequestInput) : Outcome Unit :=
  match pushRequests self.requests ticketTypeRequests with
  | (.error e, requests) => ⟨.error e, { self with requests := requests }, []⟩
  | (.ok (), requests) =>
    let self1 : TicketService := { self with requests := requests }
    match self1.validateRequest with
    | .error e => ⟨.error e, self1, []⟩
    | .ok () =>
      match calcTotalTicketAmount g self1 with
      | (.error e, paid) => ⟨.error e, self1, paid⟩
      | (.ok (), paid) =>
        match reserveSeats g self1 with
        | (.error e, reserved) => ⟨.error e, self1, paid ++ reserved⟩
        | (.ok (), reserved) => ⟨.ok (), self1, paid ++ reserved⟩

/-- Method `#setAccountId`. -/
def setAccountId (self : TicketService) (accountId : JsValue) : TicketService :=
  { self with accountId := accountId }

/-- The string `purchaseTickets` returns. -/
def successMessage : String := "Cinema tickets purchased and seats reservation is successful"

/-- Method `purchaseTickets(accountId, ...ticketTypeRequests)`. The rest arguments are spread into
`#ticketTypeRequest`, which has one parameter: it receives the first of them, and with none of
them `undefined`, on which `forEach` is a `TypeError`. -/
def purchaseTickets (g : Collaborators) (self : TicketService) (accountId : JsValue)
    (ticketTypeRequests : List (List TicketTypeRequestInput)) : Outcome String :=
  let self1 := self.setAccountId accountId
  match ticketTypeRequests with
  | [] =>
    ⟨.error (.typeError "Cannot read properties of undefined (reading forEach)"), self1, []⟩
  | first :: _ =>
    let out := ticketTypeRequest g self1 first
    match out.result with
    | .error e => ⟨.error e, out.service, out.calls⟩
    | .ok () => ⟨.ok successMessage, out.service, out.calls⟩

end TicketService

/-! ## The collaborators of the spec -/

/-- Whether a value is a positive integer. -/
def JsValue.isPositiveInteger : JsValue → Bool
  | .number n => decide (0 < n)
  | _ => false

namespace TicketPaymentService

/-- Modelled from the spec: the payment collaborator
(`thirdparty/paymentgateway/TicketPaymentService.js` is not among the files embedded here), which
"accepts (accountId: positive integer, amount: non-negative integer)" and for which a "non-positive
or non-integer accountId" is a contract error (`TypeError`). The spec names no error for the
amount, and does not fix the text of the message. -/
def makePayment (accountId : JsValue) (_totalAmountToPay : Int) : Except Error Unit :=
  if accountId.isPositiveInteger then .ok ()
  else .error (.typeError "accountId must be a positive integer")

end TicketPaymentService

namespace SeatReservationService

/-- Modelled from the spec: the seat-reservation collaborator
(`thirdparty/seatbooking/SeatReservationService.js` is not among the files embedded here), which
"accepts (accountId: positive integer, seatCount: non-negative integer)" and for which a
"non-positive or non-integer accountId" is a contract error (`TypeError`). The spec names no error
for the seat count, and does not fix the text of the message. -/
def reserveSeat (accountId : JsValue) (_totalSeatsToAllocate : Int) : Except Error Unit :=
  if accountId.isPositiveInteger then .ok ()
  else .error (.typeError "accountId must be a positive integer")

end SeatReservationService

/-- The two collaborators as the spec describes them. -/
def Collaborators.thirdparty : Collaborators :=
  { makePayment := TicketPaymentService.makePayment,
    reserveSeat := SeatReservationService.reserveSeat }

/-! ## Vocabulary of the claims -/

/-- Collaborators that never raise. -/
def Collaborators.accepting : Collaborators :=
  { makePayment := fun _ _ => .ok (), reserveSeat := fun _ _ => .ok () }

/-- The number of tickets of a type in an order: the sum over all its entries of that type. -/
def ticketsOf (ticketType : String) (order : List TicketTypeRequestInput) : Int :=
  ((order.filter (fun e => e.type == ticketType)).map (fun e => e.noOfTickets)).sum

/-- The number of tickets in an order, all types together. -/
def totalTickets (order : List TicketTypeRequestInput) : Int :=
  (order.map (fun e => e.noOfTickets)).sum

/-- Every entry of the order has one of the three ticket types. -/
def Recognised (order : List TicketTypeRequestInput) : Prop :=
  ∀ e ∈ order, e.type ∈ TicketTypeRequest.ticketTypes

/-- The request stored for an entry that passed the constructor of `TicketTypeRequest`. -/
def toRequest (e : TicketTypeRequestInput) : Request :=
  { type := e.type, noOfTickets := e.noOfTickets }

/-- The number of tickets of a type as the service reads it off an order: the count of the first
entry of that type, `0` when there is none (`#getNoOfTickets` on the requests stored for the
order). For an order with at most one entry per type this is `ticketsOf`. -/
def firstCount (ticketType : String) (order : List TicketTypeRequestInput) : Int :=
  match order.find? (fun e => e.type == ticketType) with
  | none => 0
  | some e => e.noOfTickets

/-- The order has at most one entry per ticket type. -/
def OneEntryPerType (order : List TicketTypeRequestInput) : Prop :=
  (order.map (fun e => e.type)).Nodup

instance (order : List TicketTypeRequestInput) : Decidable (Recognised order) := by
  unfold Recognised; infer_instance

instance (order : List TicketTypeRequestInput) : Decidable (OneEntryPerType order) := by
  unfold OneEntryPerType; infer_instance

/-! ## Lemmas on the embedding -/

namespace TicketService

theorem capMessage :
    s!"Only a maximum of {maxTickets} tickets can be purchased at a time"
      = "Only a maximum of 20 tickets can be purchased at a time" := by rfl

theorem foldl_noOfTickets (rs : List Request) (z : Int) :
    rs.foldl (fun acc curr => acc + curr.noOfTickets) z
      = z + (rs.map (fun r => r.noOfTickets)).sum := by
  induction rs generalizing z with
  | nil => simp
  | cons r rs ih => simp [ih, add_assoc]

theorem pushRequests_recognised (rs : List Request) (order : List TicketTypeRequestInput)
    (h : Recognised order) :
    pushRequests rs order = (.ok (), rs ++ order.map toRequest) := by
  induction order generalizing rs with
  | nil => simp [pushRequests]
  | cons e es ih =>
    have he : e.type ∈ TicketTypeRequest.ticketTypes := h e (List.mem_cons_self _ _)
    have hes : Recognised es := fun x hx => h x (List.mem_cons_of_mem _ hx)
    simp [pushRequests, TicketTypeRequest.new, he, ih _ hes, toRequest,
      TicketTypeRequest.getTicketType, TicketTypeRequest.getNoOfTickets]

theorem getNoOfTickets_map_toRequest (order : List TicketTypeRequestInput) (a : JsValue)
    (t : String) :
    getNoOfTickets { requests := order.map toRequest, accountId := a } t = firstCount t order := by
  unfold getNoOfTickets firstCount
  induction order with
  | nil => simp
  | cons e es ih =>
    by_cases h : e.type = t
    · have hp : (e.type == t) = true := by simp [h]
      simp [List.find?_cons, toRequest, hp]
    · have hp : (e.type == t) = false := by simp [h]
      have hq : ((toRequest e).type == t) = false := by simp [toRequest, h]
      rw [List.map_cons, List.find?_cons, hq, List.find?_cons, hp]
      exact ih

theorem validateRequest_map_toRequest (order : List TicketTypeRequestInput) (a : JsValue) :
    validateRequest { requests := order.map toRequest, accountId := a } =
      if firstCount "ADULT" order = 0 then
        .error (.invalidPurchaseException "You have to purchase at least one adult ticket")
      else if firstCount "ADULT" order < 1 then
        .error (.invalidPurchaseException
          "Child and Infant tickets cannot be purchased without purchasing an Adult ticket.")
      else if 20 < totalTickets order then
        .error (.invalidPurchaseException
          "Only a maximum of 20 tickets can be purchased at a time")
      else if firstCount "ADULT" order < firstCount "INFANT" order then
        .error (.invalidPurchaseException
          "Number of Infant tickets cannot be greater than the Number of Adult tickets.")
      else .ok () := by
  have hsum : (List.map (fun r => r.noOfTickets) (List.map toRequest order)).sum
      = totalTickets order := by
    simp [totalTickets, toRequest, List.map_map, Function.comp_def]
  simp only [validateRequest, validateMinimumNoOfAdultTicket, validateNoOfRequest,
    validateInfantTicket, getNoOfTickets_map_toRequest, foldl_noOfTickets, capMessage,
    minAdultTicket, maxTickets, hsum, zero_add, gt_iff_lt]
  split_ifs <;> rfl

/-- A call on a fresh instance with an order of recognised types, spelled out. -/
theorem purchaseTickets_new (g : Collaborators) (accountId : JsValue)
    (order : List TicketTypeRequestInput) (rest : List (List TicketTypeRequestInput))
    (h : Recognised order) :
    purchaseTickets g new accountId (order :: rest) =
      match validateRequest { requests := order.map toRequest, accountId := accountId } with
      | .error e => ⟨.error e, { requests := order.map toRequest, accountId := accountId }, []⟩
      | .ok () =>
        match g.makePayment accountId
            (firstCount "ADULT" order * 20 + firstCount "CHILD" order * 5
              + firstCount "INFANT" order * 0) with
        | .error e =>
          ⟨.error e, { requests := order.map toRequest, accountId := accountId },
            [.makePayment accountId
              (firstCount "ADULT" order * 20 + firstCount "CHILD" order * 5
                + firstCount "INFANT" order * 0)]⟩
        | .ok () =>
          match g.reserveSeat accountId (firstCount "ADULT" order + firstCount "CHILD" order) with
          | .error e =>
            ⟨.error e, { requests := order.map toRequest, accountId := accountId },
              [.makePayment accountId
                (firstCount "ADULT" order * 20 + firstCount "CHILD" order * 5
                  + firstCount "INFANT" order * 0),
               .reserveSeat accountId (firstCount "ADULT" order + firstCount "CHILD" order)]⟩
          | .ok () =>
            ⟨.ok successMessage, { requests := order.map toRequest, accountId := accountId },
              [.makePayment accountId
                (firstCount "ADULT" order * 20 + firstCount "CHILD" order * 5
                  + firstCount "INFANT" order * 0),
               .reserveSeat accountId (firstCount "ADULT" order + firstCount "CHILD" order)]⟩ := by
  simp only [purchaseTickets, ticketTypeRequest, setAccountId, new,
    pushRequests_recognised _ _ h, List.nil_append]
  cases hv : validateRequest { requests := order.map toRequest, accountId := accountId } with
  | error e => rfl
  | ok u =>
    simp only [calcTotalTicketAmount, makePayments, reserveSeats, getNoOfSeatToAllocate,
      getNoOfTickets_map_toRequest, adultTicketAmount, childTicketAmount, infantTicketAmount]
    cases hp : g.makePayment accountId
        (firstCount "ADULT" order * 20 + firstCount "CHILD" order * 5
          + firstCount "INFANT" order * 0) with
    | error e => rfl
    | ok u1 =>
      cases hr : g.reserveSeat accountId
          (firstCount "ADULT" order + firstCount "CHILD" order) with
      | error e => simp
      | ok u2 => simp

end TicketService

theorem ticketsOf_cons (t : String) (e : TicketTypeRequestInput)
    (es : List TicketTypeRequestInput) :
    ticketsOf t (e :: es) = (if e.type = t then e.noOfTickets else 0) + ticketsOf t es := by
  by_cases h : e.type = t <;> simp [ticketsOf, List.filter_cons, h]

theorem ticketsOf_eq_zero_of_not_mem (t : String) (es : List TicketTypeRequestInput)
    (h : t ∉ es.map (fun e => e.type)) : ticketsOf t es = 0 := by
  induction es with
  | nil => simp [ticketsOf]
  | cons e es ih =>
    simp only [List.map_cons, List.mem_cons, not_or] at h
    have hne : ¬ e.type = t := fun hc => h.1 hc.symm
    simp [ticketsOf_cons, hne, ih h.2]

theorem firstCount_cons (t : String) (e : TicketTypeRequestInput)
    (es : List TicketTypeRequestInput) :
    firstCount t (e :: es) = if e.type = t then e.noOfTickets else firstCount t es := by
  by_cases h : e.type = t
  · have hp : (e.type == t) = true := by simp [h]
    simp [firstCount, List.find?_cons, hp, h]
  · have hp : (e.type == t) = false := by simp [h]
    simp [firstCount, List.find?_cons, hp, h]

/-- With at most one entry per type, the count the service reads is the count of the order. -/
theorem firstCount_eq_ticketsOf (t : String) (order : List TicketTypeRequestInput)
    (h : OneEntryPerType order) : firstCount t order = ticketsOf t order := by
  induction order with
  | nil => simp [firstCount, ticketsOf]
  | cons e es ih =>
    have hnd : e.type ∉ es.map (fun e => e.type) ∧ (es.map (fun e => e.type)).Nodup := by
      simpa [OneEntryPerType] using h
    rw [firstCount_cons, ticketsOf_cons]
    by_cases ht : e.type = t
    · have h0 : ticketsOf t es = 0 := ticketsOf_eq_zero_of_not_mem t es (ht ▸ hnd.1)
      simp [ht, h0]
    · simp [ht, ih hnd.2]

/-- The tickets of an order of recognised types are its adult, child and infant tickets. -/
theorem totalTickets_eq (order : List TicketTypeRequestInput) (h : Recognised order) :
    totalTickets order
      = ticketsOf "ADULT" order + ticketsOf "CHILD" order + ticketsOf "INFANT" order := by
  induction order with
  | nil => simp [totalTickets, ticketsOf]
  | cons e es ih =>
    have he : e.type ∈ TicketTypeRequest.ticketTypes := h e (List.mem_cons_self _ _)
    have hes : Recognised es := fun x hx => h x (List.mem_cons_of_mem _ hx)
    have ih1 := ih hes
    have hc : totalTickets (e :: es) = e.noOfTickets + totalTickets es := by
      simp [totalTickets]
    rw [hc, ih1, ticketsOf_cons, ticketsOf_cons, ticketsOf_cons]
    simp only [TicketTypeRequest.ticketTypes, List.mem_cons, List.mem_singleton,
      List.not_mem_nil, or_false] at he
    rcases he with he | he | he <;> simp [he] <;> ring

theorem ticketsOf_nonneg (t : String) (order : List TicketTypeRequestInput)
    (h : ∀ e ∈ order, 0 ≤ e.noOfTickets) : 0 ≤ ticketsOf t order := by
  induction order with
  | nil => simp [ticketsOf]
  | cons e es ih =>
    have he : 0 ≤ e.noOfTickets := h e (List.mem_cons_self _ _)
    have hes := ih (fun x hx => h x (List.mem_cons_of_mem _ hx))
    rw [ticketsOf_cons]
    split_ifs <;> omega

/-- With counts that are not negative, an order without tickets of a type has a first entry of
that type, if any, with count `0`. -/
theorem firstCount_eq_zero (t : String) (order : List TicketTypeRequestInput)
    (h : ∀ e ∈ order, 0 ≤ e.noOfTickets) (h0 : ticketsOf t order = 0) :
    firstCount t order = 0 := by
  induction order with
  | nil => simp [firstCount]
  | cons e es ih =>
    have he : 0 ≤ e.noOfTickets := h e (List.mem_cons_self _ _)
    have hes : ∀ x ∈ es, 0 ≤ x.noOfTickets := fun x hx => h x (List.mem_cons_of_mem _ hx)
    have hnn := ticketsOf_nonneg t es hes
    rw [ticketsOf_cons] at h0
    rw [firstCount_cons]
    by_cases ht : e.type = t
    · simp only [ht, if_true] at h0 ⊢
      omega
    · simp only [ht, if_false, zero_add] at h0 ⊢
      exact ih hes h0

/-- An entry of an unknown type makes the loop of `#ticketTypeRequest` end in a `TypeError`. -/
theorem pushRequests_unrecognised (rs : List Request) (order : List TicketTypeRequestInput)
    (bad : TicketTypeRequestInput) (hmem : bad ∈ order)
    (hbad : bad.type ∉ TicketTypeRequest.ticketTypes) :
    ∃ message rs1, TicketService.pushRequests rs order = (.error (.typeError message), rs1) := by
  induction order generalizing rs with
  | nil => simp at hmem
  | cons e es ih =>
    by_cases he : e.type ∈ TicketTypeRequest.ticketTypes
    · have hne : bad ≠ e := fun hc => hbad (hc ▸ he)
      have hmem1 : bad ∈ es := by
        rcases List.mem_cons.mp hmem with h | h
        · exact absurd h hne
        · exact h
      obtain ⟨m, rs1, h⟩ := ih (rs ++ [{ type := e.type, noOfTickets := e.noOfTickets }]) hmem1
      exact ⟨m, rs1, by
        simpa [TicketService.pushRequests, TicketTypeRequest.new, he,
          TicketTypeRequest.getTicketType, TicketTypeRequest.getNoOfTickets] using h⟩
    · exact ⟨"invalid ticket type", rs, by
        simp [TicketService.pushRequests, TicketTypeRequest.new, he]⟩

/-- The loop of `#ticketTypeRequest` throws nothing but a `TypeError`. -/
theorem pushRequests_error (rs : List Request) (order : List TicketTypeRequestInput)
    (e : Error) (rs1 : List Request) (h : TicketService.pushRequests rs order = (.error e, rs1)) :
    ∃ message, e = .typeError message := by
  induction order generalizing rs with
  | nil => simp [TicketService.pushRequests] at h
  | cons x xs ih =>
    by_cases hx : x.type ∈ TicketTypeRequest.ticketTypes
    · simp only [TicketService.pushRequests, TicketTypeRequest.new, hx, if_true] at h
      exact ih _ h
    · simp only [TicketService.pushRequests, TicketTypeRequest.new, hx, if_false] at h
      exact ⟨"invalid ticket type", by
        have := congrArg Prod.fst h
        simpa using this.symm⟩

namespace TicketService

/-- The amount `#calcTotalTicketAmount` passes to the payment collaborator. -/
theorem calcTotalTicketAmount_eq (g : Collaborators) (self : TicketService) :
    calcTotalTicketAmount g self =
      (g.makePayment self.accountId
          (self.getNoOfTickets "ADULT" * 20 + self.getNoOfTickets "CHILD" * 5
            + self.getNoOfTickets "INFANT" * 0),
        [.makePayment self.accountId
          (self.getNoOfTickets "ADULT" * 20 + self.getNoOfTickets "CHILD" * 5
            + self.getNoOfTickets "INFANT" * 0)]) := rfl

/-- A call whose loop over the order throws. -/
theorem purchaseTickets_push_error (g : Collaborators) (self : TicketService)
    (accountId : JsValue) (first : List TicketTypeRequestInput)
    (rest : List (List TicketTypeRequestInput)) (e : Error) (rs : List Request)
    (hp : pushRequests self.requests first = (.error e, rs)) :
    purchaseTickets g self accountId (first :: rest)
      = ⟨.error e, { requests := rs, accountId := accountId }, []⟩ := by
  simp [purchaseTickets, ticketTypeRequest, setAccountId, hp]

/-- A call whose validation throws. -/
theorem purchaseTickets_validation_error (g : Collaborators) (self : TicketService)
    (accountId : JsValue) (first : List TicketTypeRequestInput)
    (rest : List (List TicketTypeRequestInput)) (e : Error) (rs : List Request)
    (hp : pushRequests self.requests first = (.ok (), rs))
    (hv : validateRequest { requests := rs, accountId := accountId } = .error e) :
    purchaseTickets g self accountId (first :: rest)
      = ⟨.error e, { requests := rs, accountId := accountId }, []⟩ := by
  simp [purchaseTickets, ticketTypeRequest, setAccountId, hp, hv]

/-- A call whose payment is refused. -/
theorem purchaseTickets_payment_error (g : Collaborators) (self : TicketService)
    (accountId : JsValue) (first : List TicketTypeRequestInput)
    (rest : List (List TicketTypeRequestInput)) (e : Error) (rs : List Request)
    (hp : pushRequests self.requests first = (.ok (), rs))
    (hv : validateRequest { requests := rs, accountId := accountId } = .ok ())
    (hpay : (calcTotalTicketAmount g { requests := rs, accountId := accountId }).1 = .error e) :
    purchaseTickets g self accountId (first :: rest)
      = ⟨.error e, { requests := rs, accountId := accountId },
          (calcTotalTicketAmount g { requests := rs, accountId := accountId }).2⟩ := by
  rcases hc : calcTotalTicketAmount g { requests := rs, accountId := accountId } with ⟨r, paid⟩
  rw [hc] at hpay
  simp only at hpay
  subst hpay
  simp [purchaseTickets, ticketTypeRequest, setAccountId, hp, hv, hc]

/-- A call whose payment is accepted. -/
theorem purchaseTickets_paid (g : Collaborators) (self : TicketService)
    (accountId : JsValue) (first : List TicketTypeRequestInput)
    (rest : List (List TicketTypeRequestInput)) (rs : List Request)
    (hp : pushRequests self.requests first = (.ok (), rs))
    (hv : validateRequest { requests := rs, accountId := accountId } = .ok ())
    (hpay : (calcTotalTicketAmount g { requests := rs, accountId := accountId }).1 = .ok ()) :
    purchaseTickets g self accountId (first :: rest)
      = ⟨match (reserveSeats g { requests := rs, accountId := accountId }).1 with
          | .error e => .error e
          | .ok () => .ok successMessage,
          { requests := rs, accountId := accountId },
          (calcTotalTicketAmount g { requests := rs, accountId := accountId }).2
            ++ (reserveSeats g { requests := rs, accountId := accountId }).2⟩ := by
  rcases hc : calcTotalTicketAmount g { requests := rs, accountId := accountId } with ⟨r, paid⟩
  rw [hc] at hpay
  simp only at hpay
  subst hpay
  rcases hr : reserveSeats g { requests := rs, accountId := accountId } with ⟨r1, reserved⟩
  cases r1 <;> simp [purchaseTickets, ticketTypeRequest, setAccountId, hp, hv, hc, hr]

end TicketService

namespace TicketService

/-- The count read for a type is the count of the first stored request of that type. -/
theorem getNoOfTickets_append_cons (a : JsValue) (t : String) (pre post : List Request)
    (r : Request) (hpre : ∀ x ∈ pre, x.type ≠ t) (hr : r.type = t) :
    getNoOfTickets { requests := pre ++ r :: post, accountId := a } t = r.noOfTickets := by
  induction pre with
  | nil =>
    have hp : (r.type == t) = true := by simp [hr]
    simp [getNoOfTickets, List.find?_cons, hp]
  | cons x xs ih =>
    have hx : (x.type == t) = false := by
      have := hpre x (List.mem_cons_self _ _)
      simp [this]
    have ih1 := ih (fun y hy => hpre y (List.mem_cons_of_mem _ hy))
    simp only [getNoOfTickets, List.cons_append, List.find?_cons, hx] at ih1 ⊢
    exact ih1

/-- The count read for a type without stored request is `0`. -/
theorem getNoOfTickets_of_not_mem (a : JsValue) (t : String) (rs : List Request)
    (h : ∀ x ∈ rs, x.type ≠ t) :
    getNoOfTickets { requests := rs, accountId := a } t = 0 := by
  induction rs with
  | nil => simp [getNoOfTickets]
  | cons x xs ih =>
    have hx : (x.type == t) = false := by
      have := h x (List.mem_cons_self _ _)
      simp [this]
    have ih1 := ih (fun y hy => h y (List.mem_cons_of_mem _ hy))
    simp only [getNoOfTickets, List.find?_cons, hx] at ih1 ⊢
    exact ih1

/-- A loop that ends without exception has stored every entry of the order, in order. -/
theorem pushRequests_ok (rs : List Request) (order : List TicketTypeRequestInput)
    (rs1 : List Request) (h : pushRequests rs order = (.ok (), rs1)) :
    rs1 = rs ++ order.map toRequest := by
  induction order generalizing rs with
  | nil =>
    simp only [pushRequests, Prod.mk.injEq, true_and] at h
    simp [h]
  | cons x xs ih =>
    by_cases hx : x.type ∈ TicketTypeRequest.ticketTypes
    · simp only [pushRequests, TicketTypeRequest.new, hx, if_true] at h
      have := ih _ h
      simpa [toRequest, TicketTypeRequest.getTicketType, TicketTypeRequest.getNoOfTickets]
        using this
    · simp [pushRequests, TicketTypeRequest.new, hx] at h

/-- The instance after a call, and the invocations the call made: none, or, the loop and the
validation having passed, the payment alone or the payment and the reservation, with the amount
and the seats computed from the counts read off the stored requests. -/
theorem purchaseTickets_service_calls (g : Collaborators) (self : TicketService)
    (accountId : JsValue) (first : List TicketTypeRequestInput)
    (rest : List (List TicketTypeRequestInput)) :
    (purchaseTickets g self accountId (first :: rest)).service
        = { requests := (pushRequests self.requests first).2, accountId := accountId } ∧
    ((purchaseTickets g self accountId (first :: rest)).calls = [] ∨
      ((pushRequests self.requests first).1 = .ok () ∧
        validateRequest (purchaseTickets g self accountId (first :: rest)).service = .ok () ∧
        ((purchaseTickets g self accountId (first :: rest)).calls
            = [.makePayment accountId
                ((purchaseTickets g self accountId (first :: rest)).service.getNoOfTickets "ADULT"
                    * 20
                  + (purchaseTickets g self accountId (first :: rest)).service.getNoOfTickets
                      "CHILD" * 5)] ∨
          (purchaseTickets g self accountId (first :: rest)).calls
            = [.makePayment accountId
                ((purchaseTickets g self accountId (first :: rest)).service.getNoOfTickets "ADULT"
                    * 20
                  + (purchaseTickets g self accountId (first :: rest)).service.getNoOfTickets
                      "CHILD" * 5),
               .reserveSeat accountId
                ((purchaseTickets g self accountId (first :: rest)).service.getNoOfTickets "ADULT"
                  + (purchaseTickets g self accountId (first :: rest)).service.getNoOfTickets
                      "CHILD")]))) := by
  rcases hp : pushRequests self.requests first with ⟨r, rs⟩
  cases r with
  | error e1 =>
    rw [purchaseTickets_push_error g self accountId first rest _ rs hp]
    exact ⟨rfl, Or.inl rfl⟩
  | ok u =>
    cases hv : validateRequest { requests := rs, accountId := accountId } with
    | error e1 =>
      rw [purchaseTickets_validation_error g self accountId first rest e1 rs hp hv]
      exact ⟨rfl, Or.inl rfl⟩
    | ok u1 =>
      cases hpay : (calcTotalTicketAmount g { requests := rs, accountId := accountId }).1 with
      | error e1 =>
        rw [purchaseTickets_payment_error g self accountId first rest e1 rs hp hv hpay]
        refine ⟨rfl, Or.inr ⟨rfl, hv, Or.inl ?_⟩⟩
        simp [calcTotalTicketAmount_eq]
      | ok u2 =>
        rw [purchaseTickets_paid g self accountId first rest rs hp hv hpay]
        refine ⟨rfl, Or.inr ⟨rfl, hv, Or.inr ?_⟩⟩
        simp [calcTotalTicketAmount_eq, reserveSeats, getNoOfSeatToAllocate]

end TicketService

namespace TicketService

/-- What a validation that passes has checked. -/
theorem validateRequest_ok (s : TicketService) (h : validateRequest s = .ok ()) :
    1 ≤ s.getNoOfTickets "ADULT" ∧
      (s.requests.map (fun r => r.noOfTickets)).sum ≤ 20 ∧
      s.getNoOfTickets "INFANT" ≤ s.getNoOfTickets "ADULT" := by
  simp only [validateRequest, validateMinimumNoOfAdultTicket, validateNoOfRequest,
    validateInfantTicket, foldl_noOfTickets, minAdultTicket, maxTickets, zero_add,
    gt_iff_lt] at h
  by_cases h0 : s.getNoOfTickets "ADULT" = 0
  · simp [h0, bind, Except.bind] at h
  · by_cases h1 : s.getNoOfTickets "ADULT" < 1
    · simp [h0, h1, bind, Except.bind] at h
    · by_cases h2 : 20 < (s.requests.map (fun r => r.noOfTickets)).sum
      · simp [h0, h1, h2, bind, Except.bind] at h
      · by_cases h3 : s.getNoOfTickets "ADULT" < s.getNoOfTickets "INFANT"
        · simp [h0, h1, h2, h3, bind, Except.bind] at h
        · omega

/-- With counts that are not negative, the counts read for two different types are entries of
their own in the sum of all counts. -/
theorem getNoOfTickets_add_le (a : JsValue) (rs : List Request) (t1 t2 : String)
    (hne : t1 ≠ t2) (h : ∀ r ∈ rs, 0 ≤ r.noOfTickets) :
    0 ≤ getNoOfTickets { requests := rs, accountId := a } t1 ∧
    0 ≤ getNoOfTickets { requests := rs, accountId := a } t2 ∧
    getNoOfTickets { requests := rs, accountId := a } t1
        + getNoOfTickets { requests := rs, accountId := a } t2
      ≤ (rs.map (fun r => r.noOfTickets)).sum ∧
    getNoOfTickets { requests := rs, accountId := a } t1
      ≤ (rs.map (fun r => r.noOfTickets)).sum ∧
    getNoOfTickets { requests := rs, accountId := a } t2
      ≤ (rs.map (fun r => r.noOfTickets)).sum := by
  induction rs with
  | nil => simp [getNoOfTickets]
  | cons x xs ih =>
    have hx : 0 ≤ x.noOfTickets := h x (List.mem_cons_self _ _)
    obtain ⟨i1, i2, i3, i4, i5⟩ := ih (fun y hy => h y (List.mem_cons_of_mem _ hy))
    simp only [getNoOfTickets, List.find?_cons, List.map_cons, List.sum_cons] at i1 i2 i3 i4 i5 ⊢
    by_cases h1 : x.type = t1
    · have h2 : ¬ x.type = t2 := fun hc => hne (h1.symm.trans hc)
      have e1 : (x.type == t1) = true := by simp [h1]
      have e2 : (x.type == t2) = false := by simp [h2]
      simp only [e1, e2]
      refine ⟨hx, i2, ?_, ?_, ?_⟩ <;> omega
    · by_cases h2 : x.type = t2
      · have e1 : (x.type == t1) = false := by simp [h1]
        have e2 : (x.type == t2) = true := by simp [h2]
        simp only [e1, e2]
        refine ⟨i1, hx, ?_, ?_, ?_⟩ <;> omega
      · have e1 : (x.type == t1) = false := by simp [h1]
        have e2 : (x.type == t2) = false := by simp [h2]
        simp only [e1, e2]
        refine ⟨i1, i2, ?_, ?_, ?_⟩ <;> omega

end TicketService

namespace TicketService

/-- The validation throws nothing but an `InvalidPurchaseException`. -/
theorem validateRequest_error (s : TicketService) (e : Error)
    (h : validateRequest s = .error e) : ∃ message, e = .invalidPurchaseException message := by
  simp only [validateRequest, validateMinimumNoOfAdultTicket, validateNoOfRequest,
    validateInfantTicket] at h
  by_cases h0 : s.getNoOfTickets "ADULT" = 0
  · simp only [h0, if_true, bind, Except.bind] at h
    exact ⟨_, (Except.error.inj h).symm⟩
  · by_cases h1 : s.getNoOfTickets "ADULT" < minAdultTicket
    · simp only [h0, h1, if_true, if_false, bind, Except.bind] at h
      exact ⟨_, (Except.error.inj h).symm⟩
    · by_cases h2 : s.requests.foldl (fun acc curr => acc + curr.noOfTickets) 0 > maxTickets
      · simp only [h0, h1, h2, if_true, if_false, bind, Except.bind] at h
        exact ⟨_, (Except.error.inj h).symm⟩
      · by_cases h3 : s.getNoOfTickets "ADULT" < s.getNoOfTickets "INFANT"
        · simp only [h0, h1, h2, h3, if_true, if_false, bind, Except.bind] at h
          exact ⟨_, (Except.error.inj h).symm⟩
        · simp [h0, h1, h2, h3, bind, Except.bind] at h

end TicketService

/-! ## The claims -/

open TicketService

/-- C1: on a freshly constructed service, for every integer accountId and every order of
recognised types with at most one entry per type whose counts satisfy `1 ≤ adults ≤ 20`,
`infants ≤ adults` and `adults + children + infants ≤ 20`, and with collaborators that return from
the two invocations, `purchaseTickets` returns the success string, having invoked the payment
collaborator once with `(accountId, adults*20 + children*5)` and then the seat collaborator once
with `(accountId, adults + children)`. -/
theorem purchaseTickets_valid_order (g : Collaborators) (n : Int)
    (order : List TicketTypeRequestInput)
    (hrec : Recognised order) (hone : OneEntryPerType order)
    (hadult : 1 ≤ ticketsOf "ADULT" order ∧ ticketsOf "ADULT" order ≤ 20)
    (hinfant : ticketsOf "INFANT" order ≤ ticketsOf "ADULT" order)
    (htotal : ticketsOf "ADULT" order + ticketsOf "CHILD" order + ticketsOf "INFANT" order ≤ 20)
    (hpay : g.makePayment (.number n)
      (ticketsOf "ADULT" order * 20 + ticketsOf "CHILD" order * 5) = .ok ())
    (hseat : g.reserveSeat (.number n)
      (ticketsOf "ADULT" order + ticketsOf "CHILD" order) = .ok ()) :
    (purchaseTickets g TicketService.new (.number n) [order]).result
        = .ok "Cinema tickets purchased and seats reservation is successful" ∧
      (purchaseTickets g TicketService.new (.number n) [order]).calls
        = [.makePayment (.number n) (ticketsOf "ADULT" order * 20 + ticketsOf "CHILD" order * 5),
           .reserveSeat (.number n) (ticketsOf "ADULT" order + ticketsOf "CHILD" order)] := by
  have hA := firstCount_eq_ticketsOf "ADULT" order hone
  have hC := firstCount_eq_ticketsOf "CHILD" order hone
  have hI := firstCount_eq_ticketsOf "INFANT" order hone
  have hT := totalTickets_eq order hrec
  have hv : validateRequest { requests := order.map toRequest, accountId := .number n }
      = .ok () := by
    rw [validateRequest_map_toRequest, hA, hI, hT]
    have h1 : ¬ ticketsOf "ADULT" order = 0 := by omega
    have h2 : ¬ ticketsOf "ADULT" order < 1 := by omega
    have h3 : ¬ 20 < ticketsOf "ADULT" order + ticketsOf "CHILD" order
        + ticketsOf "INFANT" order := by omega
    have h4 : ¬ ticketsOf "ADULT" order < ticketsOf "INFANT" order := by omega
    simp [h1, h2, h3, h4]
  rw [purchaseTickets_new g _ order [] hrec, hv, hA, hC, hI]
  simp [hpay, hseat, successMessage]

/-- Witness of C1: the order `[{ADULT,5},{INFANT,1},{CHILD,1}]` of account 1 is charged 105 and
gets 6 seats. -/
theorem purchaseTickets_valid_order_witness :
    (purchaseTickets Collaborators.accepting TicketService.new (.number 1)
        [[⟨"ADULT", 5⟩, ⟨"INFANT", 1⟩, ⟨"CHILD", 1⟩]]).result
        = .ok "Cinema tickets purchased and seats reservation is successful" ∧
      (purchaseTickets Collaborators.accepting TicketService.new (.number 1)
        [[⟨"ADULT", 5⟩, ⟨"INFANT", 1⟩, ⟨"CHILD", 1⟩]]).calls
        = [.makePayment (.number 1) 105, .reserveSeat (.number 1) 6] :=
  purchaseTickets_valid_order Collaborators.accepting 1
    [⟨"ADULT", 5⟩, ⟨"INFANT", 1⟩, ⟨"CHILD", 1⟩]
    (by decide) (by decide) (by decide) (by decide) (by decide) rfl rfl

/-- C2: on a freshly constructed service, for every order of recognised types with counts that
are not negative and no adult ticket (whatever its child and infant entries, so in particular with
at least one child or infant ticket), `purchaseTickets` throws the `InvalidPurchaseException`
"You have to purchase at least one adult ticket": neither a `TypeError` nor the success string, and
no collaborator is invoked. -/
theorem purchaseTickets_no_adult (g : Collaborators) (accountId : JsValue)
    (order : List TicketTypeRequestInput)
    (hrec : Recognised order) (hnonneg : ∀ e ∈ order, 0 ≤ e.noOfTickets)
    (hadult : ticketsOf "ADULT" order = 0) :
    (purchaseTickets g TicketService.new accountId [order]).result
        = .error (.invalidPurchaseException "You have to purchase at least one adult ticket") ∧
      (purchaseTickets g TicketService.new accountId [order]).calls = [] := by
  have h0 := firstCount_eq_zero "ADULT" order hnonneg hadult
  rw [purchaseTickets_new g _ order [] hrec, validateRequest_map_toRequest]
  simp [h0]

/-- Witness of C2: the order `[{INFANT,7},{CHILD,1}]` of the test suite. -/
theorem purchaseTickets_no_adult_witness :
    (purchaseTickets Collaborators.accepting TicketService.new (.number 1)
        [[⟨"INFANT", 7⟩, ⟨"CHILD", 1⟩]]).result
        = .error (.invalidPurchaseException "You have to purchase at least one adult ticket") ∧
      (purchaseTickets Collaborators.accepting TicketService.new (.number 1)
        [[⟨"INFANT", 7⟩, ⟨"CHILD", 1⟩]]).calls = [] :=
  purchaseTickets_no_adult Collaborators.accepting (.number 1)
    [⟨"INFANT", 7⟩, ⟨"CHILD", 1⟩] (by decide) (by decide) (by decide)

/-- C3 fails on the code: the order `[{ADULT,2},{INFANT,1},{INFANT,5}]` has 2 adult tickets and 6
infant tickets, and on a fresh service it is accepted, paying 40 and reserving 2 seats:
`#validateInfantTicket` compares the counts of the first ADULT and the first INFANT entry, 2 and
1. With the 6 infant tickets in one entry the same purchase is refused. -/
theorem infant_rule_first_match :
    1 ≤ ticketsOf "ADULT" [⟨"ADULT", 2⟩, ⟨"INFANT", 1⟩, ⟨"INFANT", 5⟩] ∧
    ticketsOf "ADULT" [⟨"ADULT", 2⟩, ⟨"INFANT", 1⟩, ⟨"INFANT", 5⟩]
      < ticketsOf "INFANT" [⟨"ADULT", 2⟩, ⟨"INFANT", 1⟩, ⟨"INFANT", 5⟩] ∧
    (purchaseTickets Collaborators.accepting TicketService.new (.number 1)
        [[⟨"ADULT", 2⟩, ⟨"INFANT", 1⟩, ⟨"INFANT", 5⟩]]).result
      = .ok "Cinema tickets purchased and seats reservation is successful" ∧
    (purchaseTickets Collaborators.accepting TicketService.new (.number 1)
        [[⟨"ADULT", 2⟩, ⟨"INFANT", 1⟩, ⟨"INFANT", 5⟩]]).calls
      = [.makePayment (.number 1) 40, .reserveSeat (.number 1) 2] ∧
    (purchaseTickets Collaborators.accepting TicketService.new (.number 1)
        [[⟨"ADULT", 2⟩, ⟨"INFANT", 6⟩]]).result
      = .error (.invalidPurchaseException
          "Number of Infant tickets cannot be greater than the Number of Adult tickets.") :=
  ⟨by decide, by decide, rfl, rfl, rfl⟩

/-- C4: on a freshly constructed service, for every order of recognised types with more than 20
tickets in all, whatever its infant and adult counts, `purchaseTickets` throws an
`InvalidPurchaseException` and invokes no collaborator; with at least one adult ticket read, the
exception is the one of the ticket cap. -/
theorem purchaseTickets_over_cap (g : Collaborators) (accountId : JsValue)
    (order : List TicketTypeRequestInput)
    (hrec : Recognised order) (htotal : 20 < totalTickets order) :
    ∃ message,
      (purchaseTickets g TicketService.new accountId [order]).result
        = .error (.invalidPurchaseException message) ∧
      (purchaseTickets g TicketService.new accountId [order]).calls = [] ∧
      (1 ≤ firstCount "ADULT" order →
        message = "Only a maximum of 20 tickets can be purchased at a time") := by
  rw [purchaseTickets_new g _ order [] hrec, validateRequest_map_toRequest]
  by_cases h1 : firstCount "ADULT" order = 0
  · refine ⟨"You have to purchase at least one adult ticket", ?_⟩
    simp [h1]
  · by_cases h2 : firstCount "ADULT" order < 1
    · refine ⟨"Child and Infant tickets cannot be purchased without purchasing an Adult ticket.",
        ?_⟩
      simp [h1, h2]
    · refine ⟨"Only a maximum of 20 tickets can be purchased at a time", ?_⟩
      simp [h1, h2, htotal]

/-- Witness of C4: the order `[{ADULT,5},{INFANT,3},{CHILD,18}]` of the test suite, whose infants
do not outnumber its adults. -/
theorem purchaseTickets_over_cap_witness :
    ∃ message,
      (purchaseTickets Collaborators.accepting TicketService.new (.number 1)
        [[⟨"ADULT", 5⟩, ⟨"INFANT", 3⟩, ⟨"CHILD", 18⟩]]).result
        = .error (.invalidPurchaseException message) ∧
      (purchaseTickets Collaborators.accepting TicketService.new (.number 1)
        [[⟨"ADULT", 5⟩, ⟨"INFANT", 3⟩, ⟨"CHILD", 18⟩]]).calls = [] ∧
      (1 ≤ firstCount "ADULT" [⟨"ADULT", 5⟩, ⟨"INFANT", 3⟩, ⟨"CHILD", 18⟩] →
        message = "Only a maximum of 20 tickets can be purchased at a time") :=
  purchaseTickets_over_cap Collaborators.accepting (.number 1)
    [⟨"ADULT", 5⟩, ⟨"INFANT", 3⟩, ⟨"CHILD", 18⟩] (by decide) (by decide)

/-- C5, as stated, fails: the order `[{ADULT,5},{INFANT,7},{CHILD,18}]` has an adult, more
infants than adults and more than 20 tickets, and the exception thrown is the one of the ticket
cap, not the one of the infant rule. -/
theorem validation_order_counterexample :
    1 ≤ ticketsOf "ADULT" [⟨"ADULT", 5⟩, ⟨"INFANT", 7⟩, ⟨"CHILD", 18⟩] ∧
    ticketsOf "ADULT" [⟨"ADULT", 5⟩, ⟨"INFANT", 7⟩, ⟨"CHILD", 18⟩]
      < ticketsOf "INFANT" [⟨"ADULT", 5⟩, ⟨"INFANT", 7⟩, ⟨"CHILD", 18⟩] ∧
    20 < totalTickets [⟨"ADULT", 5⟩, ⟨"INFANT", 7⟩, ⟨"CHILD", 18⟩] ∧
    (purchaseTickets Collaborators.accepting TicketService.new (.number 1)
        [[⟨"ADULT", 5⟩, ⟨"INFANT", 7⟩, ⟨"CHILD", 18⟩]]).result
      = .error (.invalidPurchaseException
          "Only a maximum of 20 tickets can be purchased at a time") ∧
    (purchaseTickets Collaborators.accepting TicketService.new (.number 1)
        [[⟨"ADULT", 5⟩, ⟨"INFANT", 7⟩, ⟨"CHILD", 18⟩]]).result
      ≠ .error (.invalidPurchaseException
          "Number of Infant tickets cannot be greater than the Number of Adult tickets.") := by
  refine ⟨by decide, by decide, by decide, rfl, ?_⟩
  have h : (purchaseTickets Collaborators.accepting TicketService.new (.number 1)
        [[⟨"ADULT", 5⟩, ⟨"INFANT", 7⟩, ⟨"CHILD", 18⟩]]).result
      = .error (.invalidPurchaseException
          "Only a maximum of 20 tickets can be purchased at a time") := rfl
  rw [h]
  intro hc
  have hm := Error.invalidPurchaseException.inj (Except.error.inj hc)
  exact absurd hm (by decide)

/-- C5, amended: on a freshly constructed service, for every order of recognised types with at
most one entry per type, the rules are checked in the order minimum of adults, ticket cap, infant
rule, and the exception thrown is the one of the first rule violated in that order, without any
collaborator invoked. With less than one adult ticket it is the one of the adult rule; with at
least one adult ticket and more than 20 tickets in all it is the one of the ticket cap, whatever
the infant count, so also with more infants than adults; with at least one adult ticket, at most
20 tickets and more infants than adults it is the one of the infant rule. -/
theorem validation_order (g : Collaborators) (accountId : JsValue)
    (order : List TicketTypeRequestInput) (hrec : Recognised order)
    (hone : OneEntryPerType order) :
    (ticketsOf "ADULT" order < 1 →
      (purchaseTickets g TicketService.new accountId [order]).result
        = .error (.invalidPurchaseException
            (if ticketsOf "ADULT" order = 0 then
              "You have to purchase at least one adult ticket"
            else
              "Child and Infant tickets cannot be purchased without purchasing an Adult ticket."))
        ∧ (purchaseTickets g TicketService.new accountId [order]).calls = []) ∧
    (1 ≤ ticketsOf "ADULT" order → 20 < totalTickets order →
      (purchaseTickets g TicketService.new accountId [order]).result
        = .error (.invalidPurchaseException
            "Only a maximum of 20 tickets can be purchased at a time")
        ∧ (purchaseTickets g TicketService.new accountId [order]).calls = []) ∧
    (1 ≤ ticketsOf "ADULT" order → totalTickets order ≤ 20 →
      ticketsOf "ADULT" order < ticketsOf "INFANT" order →
      (purchaseTickets g TicketService.new accountId [order]).result
        = .error (.invalidPurchaseException
            "Number of Infant tickets cannot be greater than the Number of Adult tickets.")
        ∧ (purchaseTickets g TicketService.new accountId [order]).calls = []) := by
  have hA := firstCount_eq_ticketsOf "ADULT" order hone
  have hI := firstCount_eq_ticketsOf "INFANT" order hone
  rw [purchaseTickets_new g _ order [] hrec, validateRequest_map_toRequest, hA, hI]
  refine ⟨fun h0 => ?_, fun h1 ht => ?_, fun h1 ht hi => ?_⟩
  · by_cases hz : ticketsOf "ADULT" order = 0
    · simp [hz]
    · simp [hz, h0]
  · have ha : ¬ ticketsOf "ADULT" order = 0 := by omega
    have hb : ¬ ticketsOf "ADULT" order < 1 := by omega
    simp [ha, hb, ht]
  · have ha : ¬ ticketsOf "ADULT" order = 0 := by omega
    have hb : ¬ ticketsOf "ADULT" order < 1 := by omega
    have hc : ¬ 20 < totalTickets order := by omega
    simp [ha, hb, hc, hi]

/-- Witness of C5, amended: the order `[{ADULT,5},{INFANT,7},{CHILD,18}]` breaks the infant rule
and the ticket cap, and is refused for the ticket cap. -/
theorem validation_order_witness :
    (purchaseTickets Collaborators.accepting TicketService.new (.number 1)
        [[⟨"ADULT", 5⟩, ⟨"INFANT", 7⟩, ⟨"CHILD", 18⟩]]).result
      = .error (.invalidPurchaseException
          "Only a maximum of 20 tickets can be purchased at a time") ∧
    (purchaseTickets Collaborators.accepting TicketService.new (.number 1)
        [[⟨"ADULT", 5⟩, ⟨"INFANT", 7⟩, ⟨"CHILD", 18⟩]]).calls = [] :=
  (validation_order Collaborators.accepting (.number 1)
    [⟨"ADULT", 5⟩, ⟨"INFANT", 7⟩, ⟨"CHILD", 18⟩] (by decide) (by decide)).2.1
    (by decide) (by decide)

/-- C6 fails on the code: the order `[{ADULT,1},{ADULT,5}]` has 6 adult tickets, and on a fresh
service it is charged `1*20` and gets 1 seat, the count of its first entry, while the ticket cap
is checked on the sum over all entries (`[{ADULT,1},{ADULT,20}]` is refused for 21 tickets). -/
theorem duplicate_entries_first_match :
    ticketsOf "ADULT" [⟨"ADULT", 1⟩, ⟨"ADULT", 5⟩] = 6 ∧
    (purchaseTickets Collaborators.accepting TicketService.new (.number 1)
        [[⟨"ADULT", 1⟩, ⟨"ADULT", 5⟩]]).result
      = .ok "Cinema tickets purchased and seats reservation is successful" ∧
    (purchaseTickets Collaborators.accepting TicketService.new (.number 1)
        [[⟨"ADULT", 1⟩, ⟨"ADULT", 5⟩]]).calls
      = [.makePayment (.number 1) 20, .reserveSeat (.number 1) 1] ∧
    (purchaseTickets Collaborators.accepting TicketService.new (.number 1)
        [[⟨"ADULT", 1⟩, ⟨"ADULT", 20⟩]]).result
      = .error (.invalidPurchaseException
          "Only a maximum of 20 tickets can be purchased at a time") :=
  ⟨by decide, rfl, rfl, rfl⟩

/-- C7: for every instance, whatever it has stored, every accountId and every arguments: when
the validation of the requests the call has stored throws (no adult, more than 20 tickets, more
infants than adults), the call invokes neither the payment nor the seat collaborator, and it ends
in that exception, or in the `TypeError` of an unknown ticket type when the validation was not
reached. -/
theorem purchaseTickets_invalid_no_calls (g : Collaborators) (self : TicketService)
    (accountId : JsValue) (args : List (List TicketTypeRequestInput)) (e : Error)
    (h : validateRequest (purchaseTickets g self accountId args).service = .error e) :
    (purchaseTickets g self accountId args).calls = [] ∧
      ((purchaseTickets g self accountId args).result = .error e ∨
        ∃ message, (purchaseTickets g self accountId args).result
          = .error (.typeError message)) := by
  cases args with
  | nil => exact ⟨rfl, Or.inr ⟨_, rfl⟩⟩
  | cons first rest =>
    rcases hp : pushRequests self.requests first with ⟨r, rs⟩
    cases r with
    | error e1 =>
      obtain ⟨m, hm⟩ := pushRequests_error _ _ _ _ hp
      subst hm
      rw [purchaseTickets_push_error g self accountId first rest _ rs hp]
      exact ⟨rfl, Or.inr ⟨m, rfl⟩⟩
    | ok u =>
      cases hv : validateRequest { requests := rs, accountId := accountId } with
      | error e1 =>
        rw [purchaseTickets_validation_error g self accountId first rest e1 rs hp hv] at h ⊢
        simp only at h
        rw [hv] at h
        cases h
        exact ⟨rfl, Or.inl rfl⟩
      | ok u1 =>
        exfalso
        cases hpay : (calcTotalTicketAmount g { requests := rs, accountId := accountId }).1 with
        | error e1 =>
          rw [purchaseTickets_payment_error g self accountId first rest e1 rs hp hv hpay] at h
          simp only at h
          rw [hv] at h
          cases h
        | ok u2 =>
          rw [purchaseTickets_paid g self accountId first rest rs hp hv hpay] at h
          simp only at h
          rw [hv] at h
          cases h

/-- Witness of C7: the order `[{INFANT,7},{CHILD,1}]` on a fresh service fails the validation,
and no collaborator is invoked. -/
theorem purchaseTickets_invalid_no_calls_witness :
    (purchaseTickets Collaborators.accepting TicketService.new (.number 1)
        [[⟨"INFANT", 7⟩, ⟨"CHILD", 1⟩]]).calls = [] ∧
      ((purchaseTickets Collaborators.accepting TicketService.new (.number 1)
          [[⟨"INFANT", 7⟩, ⟨"CHILD", 1⟩]]).result
          = .error (.invalidPurchaseException
              "You have to purchase at least one adult ticket") ∨
        ∃ message, (purchaseTickets Collaborators.accepting TicketService.new (.number 1)
          [[⟨"INFANT", 7⟩, ⟨"CHILD", 1⟩]]).result = .error (.typeError message)) :=
  purchaseTickets_invalid_no_calls Collaborators.accepting TicketService.new (.number 1)
    [[⟨"INFANT", 7⟩, ⟨"CHILD", 1⟩]]
    (.invalidPurchaseException "You have to purchase at least one adult ticket") rfl

/-- C8: in every run of `purchaseTickets`, on every instance, the collaborators are invoked in one
of three ways. Not at all; or the payment collaborator once, with the accountId of the call, which
raised, and the call ends in that very exception without any reservation; or the payment
collaborator once, which returned, and then the seat collaborator once, with the same accountId,
whose exception, if it raises, is the one the call ends in. -/
theorem payment_precedes_reservation (g : Collaborators) (self : TicketService)
    (accountId : JsValue) (args : List (List TicketTypeRequestInput)) :
    (purchaseTickets g self accountId args).calls = [] ∨
    (∃ amount e,
      (purchaseTickets g self accountId args).calls = [.makePayment accountId amount] ∧
      g.makePayment accountId amount = .error e ∧
      (purchaseTickets g self accountId args).result = .error e) ∨
    (∃ amount seats,
      (purchaseTickets g self accountId args).calls
        = [.makePayment accountId amount, .reserveSeat accountId seats] ∧
      g.makePayment accountId amount = .ok () ∧
      (purchaseTickets g self accountId args).result
        = match g.reserveSeat accountId seats with
          | .error e => .error e
          | .ok () => .ok "Cinema tickets purchased and seats reservation is successful") := by
  cases args with
  | nil => exact Or.inl rfl
  | cons first rest =>
    rcases hp : pushRequests self.requests first with ⟨r, rs⟩
    cases r with
    | error e1 =>
      rw [purchaseTickets_push_error g self accountId first rest _ rs hp]
      exact Or.inl rfl
    | ok u =>
      cases hv : validateRequest { requests := rs, accountId := accountId } with
      | error e1 =>
        rw [purchaseTickets_validation_error g self accountId first rest e1 rs hp hv]
        exact Or.inl rfl
      | ok u1 =>
        cases hpay : (calcTotalTicketAmount g { requests := rs, accountId := accountId }).1 with
        | error e1 =>
          rw [purchaseTickets_payment_error g self accountId first rest e1 rs hp hv hpay]
          rw [calcTotalTicketAmount_eq] at hpay
          exact Or.inr (Or.inl ⟨_, e1, rfl, hpay, rfl⟩)
        | ok u2 =>
          rw [purchaseTickets_paid g self accountId first rest rs hp hv hpay]
          rw [calcTotalTicketAmount_eq] at hpay
          exact Or.inr (Or.inr ⟨_, _, rfl, hpay, rfl⟩)

/-- C9 fails on the code: `this.requests` is never emptied, so a call reads the requests of the
calls before it. After `purchaseTickets(1, [{ADULT,2}])` the call
`purchaseTickets(1, [{ADULT,5}])` on the same instance pays 40 and reserves 2 seats, where a
fresh instance pays 100 and reserves 5; and the call `purchaseTickets(1, [{CHILD,1}])`, refused
by a fresh instance for want of an adult, succeeds, pays 45 and reserves 3 seats. After
`purchaseTickets(1, [{ADULT,20}])` the purchase of one adult ticket is refused with "Only a maximum
of 20 tickets can be purchased at a time". -/
theorem purchaseTickets_reads_earlier_requests :
    (purchaseTickets Collaborators.accepting
        (purchaseTickets Collaborators.accepting TicketService.new (.number 1)
          [[⟨"ADULT", 2⟩]]).service
        (.number 1) [[⟨"ADULT", 5⟩]]).calls
      = [.makePayment (.number 1) 40, .reserveSeat (.number 1) 2] ∧
    (purchaseTickets Collaborators.accepting TicketService.new (.number 1)
        [[⟨"ADULT", 5⟩]]).calls
      = [.makePayment (.number 1) 100, .reserveSeat (.number 1) 5] ∧
    (purchaseTickets Collaborators.accepting
        (purchaseTickets Collaborators.accepting TicketService.new (.number 1)
          [[⟨"ADULT", 2⟩]]).service
        (.number 1) [[⟨"CHILD", 1⟩]]).result
      = .ok "Cinema tickets purchased and seats reservation is successful" ∧
    (purchaseTickets Collaborators.accepting
        (purchaseTickets Collaborators.accepting TicketService.new (.number 1)
          [[⟨"ADULT", 2⟩]]).service
        (.number 1) [[⟨"CHILD", 1⟩]]).calls
      = [.makePayment (.number 1) 45, .reserveSeat (.number 1) 3] ∧
    (purchaseTickets Collaborators.accepting TicketService.new (.number 1)
        [[⟨"CHILD", 1⟩]]).result
      = .error (.invalidPurchaseException "You have to purchase at least one adult ticket") ∧
    (purchaseTickets Collaborators.accepting
        (purchaseTickets Collaborators.accepting TicketService.new (.number 1)
          [[⟨"ADULT", 20⟩]]).service
        (.number 1) [[⟨"ADULT", 1⟩]]).result
      = .error (.invalidPurchaseException
          "Only a maximum of 20 tickets can be purchased at a time") :=
  ⟨rfl, rfl, rfl, rfl, rfl, rfl⟩

/-- C10: for every instance, every accountId and every order with an entry whose type is none of
ADULT, CHILD, INFANT, whatever its other entries and whatever further arguments follow,
`purchaseTickets` throws a `TypeError`, hence no `InvalidPurchaseException`, and invokes no
collaborator: the entry is refused when its `TicketTypeRequest` is constructed, in the loop that
runs before the validation. -/
theorem purchaseTickets_unknown_type (g : Collaborators) (self : TicketService)
    (accountId : JsValue) (order : List TicketTypeRequestInput)
    (rest : List (List TicketTypeRequestInput)) (bad : TicketTypeRequestInput)
    (hmem : bad ∈ order) (hbad : bad.type ∉ TicketTypeRequest.ticketTypes) :
    ∃ message,
      (purchaseTickets g self accountId (order :: rest)).result = .error (.typeError message) ∧
      (purchaseTickets g self accountId (order :: rest)).calls = [] := by
  obtain ⟨m, rs1, hp⟩ := pushRequests_unrecognised self.requests order bad hmem hbad
  rw [purchaseTickets_push_error g self accountId order rest _ rs1 hp]
  exact ⟨m, rfl, rfl⟩

/-- Witness of C10: the order `[{ADUL,7},{INFANT,7},{CHILD,18}]` has no adult ticket and more
than 20 tickets, and is refused with a `TypeError` for its first entry. -/
theorem purchaseTickets_unknown_type_witness :
    ∃ message,
      (purchaseTickets Collaborators.accepting TicketService.new (.number 1)
        [[⟨"ADUL", 7⟩, ⟨"INFANT", 7⟩, ⟨"CHILD", 18⟩]]).result = .error (.typeError message) ∧
      (purchaseTickets Collaborators.accepting TicketService.new (.number 1)
        [[⟨"ADUL", 7⟩, ⟨"INFANT", 7⟩, ⟨"CHILD", 18⟩]]).calls = [] :=
  purchaseTickets_unknown_type Collaborators.accepting TicketService.new (.number 1)
    [⟨"ADUL", 7⟩, ⟨"INFANT", 7⟩, ⟨"CHILD", 18⟩] [] ⟨"ADUL", 7⟩ (by decide) (by decide)

/-- C11, as stated, fails: with the string `'1'` as accountId, and with the accountId `0`, an
order that breaks a business rule is refused with the `InvalidPurchaseException` of that rule, not
with a `TypeError`: the rules are checked before any collaborator is given the accountId. -/
theorem purchaseTickets_invalid_accountId_counterexample :
    JsValue.isPositiveInteger (.string "1") = false ∧
    (purchaseTickets Collaborators.thirdparty TicketService.new (.string "1")
        [[⟨"INFANT", 7⟩, ⟨"CHILD", 1⟩]]).result
      = .error (.invalidPurchaseException "You have to purchase at least one adult ticket") ∧
    JsValue.isPositiveInteger (.number 0) = false ∧
    (purchaseTickets Collaborators.thirdparty TicketService.new (.number 0)
        [[⟨"ADULT", 5⟩, ⟨"INFANT", 7⟩, ⟨"CHILD", 1⟩]]).result
      = .error (.invalidPurchaseException
          "Number of Infant tickets cannot be greater than the Number of Adult tickets.") :=
  ⟨rfl, rfl, rfl, rfl⟩

/-- C11, amended: for every instance, every accountId that is not a positive integer and every
order of recognised types, the instance after the call holds the requests stored before followed
by the entries of the order, and the call goes one of two ways. When the validation of these
requests throws, which it does with an `InvalidPurchaseException` only, the call ends in that
exception and invokes no collaborator, whatever the collaborators are. When the validation passes,
with the collaborators of the spec the call invokes the payment collaborator once, with the
accountId and the amount `adult*20 + child*5` of the counts read, ends in the `TypeError` that
collaborator raises, and reserves no seat. -/
theorem purchaseTickets_invalid_accountId (g : Collaborators) (self : TicketService)
    (accountId : JsValue) (order : List TicketTypeRequestInput)
    (rest : List (List TicketTypeRequestInput))
    (hid : accountId.isPositiveInteger = false) (hrec : Recognised order) :
    (purchaseTickets g self accountId (order :: rest)).service
        = { requests := self.requests ++ order.map toRequest, accountId := accountId } ∧
    (∀ e,
      validateRequest { requests := self.requests ++ order.map toRequest, accountId := accountId }
          = .error e →
        (∃ message, e = .invalidPurchaseException message) ∧
        (purchaseTickets g self accountId (order :: rest)).result = .error e ∧
        (purchaseTickets g self accountId (order :: rest)).calls = []) ∧
    (validateRequest { requests := self.requests ++ order.map toRequest, accountId := accountId }
        = .ok () →
      (purchaseTickets Collaborators.thirdparty self accountId (order :: rest)).result
          = .error (.typeError "accountId must be a positive integer") ∧
        (purchaseTickets Collaborators.thirdparty self accountId (order :: rest)).calls
          = [.makePayment accountId
              (getNoOfTickets
                  { requests := self.requests ++ order.map toRequest, accountId := accountId }
                  "ADULT" * 20
                + getNoOfTickets
                  { requests := self.requests ++ order.map toRequest, accountId := accountId }
                  "CHILD" * 5)]) := by
  have hp := pushRequests_recognised self.requests order hrec
  refine ⟨?_, fun e hv => ?_, fun hv => ?_⟩
  · have := (purchaseTickets_service_calls g self accountId order rest).1
    rw [this, hp]
  · rw [purchaseTickets_validation_error g self accountId order rest e _ hp hv]
    exact ⟨validateRequest_error _ e hv, rfl, rfl⟩
  · have hc : (calcTotalTicketAmount Collaborators.thirdparty
        { requests := self.requests ++ order.map toRequest, accountId := accountId }).1
        = .error (.typeError "accountId must be a positive integer") := by
      rw [calcTotalTicketAmount_eq]
      simp [Collaborators.thirdparty, TicketPaymentService.makePayment, hid]
    rw [purchaseTickets_payment_error _ self accountId order rest _ _ hp hv hc]
    rw [calcTotalTicketAmount_eq]
    simp

/-- Witness of C11, amended: with the accountId `'1'`, the order `[{INFANT,7},{CHILD,1}]` is
refused for want of an adult, and the valid order of the test suite reaches the payment
collaborator, whose `TypeError` ends the call. -/
theorem purchaseTickets_invalid_accountId_witness :
    ((purchaseTickets Collaborators.accepting TicketService.new (.string "1")
        [[⟨"INFANT", 7⟩, ⟨"CHILD", 1⟩]]).result
        = .error (.invalidPurchaseException "You have to purchase at least one adult ticket") ∧
      (purchaseTickets Collaborators.accepting TicketService.new (.string "1")
        [[⟨"INFANT", 7⟩, ⟨"CHILD", 1⟩]]).calls = []) ∧
    ((purchaseTickets Collaborators.thirdparty TicketService.new (.string "1")
        [[⟨"ADULT", 5⟩, ⟨"INFANT", 3⟩, ⟨"CHILD", 2⟩]]).result
        = .error (.typeError "accountId must be a positive integer") ∧
      (purchaseTickets Collaborators.thirdparty TicketService.new (.string "1")
        [[⟨"ADULT", 5⟩, ⟨"INFANT", 3⟩, ⟨"CHILD", 2⟩]]).calls
        = [.makePayment (.string "1") 110]) :=
  ⟨((purchaseTickets_invalid_accountId Collaborators.accepting TicketService.new (.string "1")
      [⟨"INFANT", 7⟩, ⟨"CHILD", 1⟩] [] rfl (by decide)).2.1
      (.invalidPurchaseException "You have to purchase at least one adult ticket") rfl).2,
    (purchaseTickets_invalid_accountId Collaborators.accepting TicketService.new (.string "1")
      [⟨"ADULT", 5⟩, ⟨"INFANT", 3⟩, ⟨"CHILD", 2⟩] [] rfl (by decide)).2.2 rfl⟩

/-- C12: for a call on a freshly constructed service with an order of recognised types, the stored
requests are the entries of the order, in order, and `#getNoOfTickets` reads for a type the count
of the first stored request of that type, whatever follows it, and `0` when there is none. The
check of the minimum of adults passes exactly when the count so read for ADULT is at least 1, and
the check of the infants exactly when the count read for INFANT is at most the one read for ADULT.
The call invokes no collaborator when the adult count read is below 1, or the order has more than
20 tickets in all, or the infant count read exceeds the adult count read; otherwise it invokes the
payment collaborator with the amount `adult*20 + child*5` of the counts read and, when that one
returns, the seat collaborator with `adult + child` of the counts read: later entries of a type
are not added in. -/
theorem getNoOfTickets_first_match (g : Collaborators) (accountId : JsValue)
    (order : List TicketTypeRequestInput) (hrec : Recognised order) :
    (purchaseTickets g TicketService.new accountId [order]).service.requests
        = order.map toRequest ∧
    (∀ t pre r post,
      (purchaseTickets g TicketService.new accountId [order]).service.requests
          = pre ++ r :: post →
        (∀ x ∈ pre, x.type ≠ t) → r.type = t →
        (purchaseTickets g TicketService.new accountId [order]).service.getNoOfTickets t
          = r.noOfTickets) ∧
    (∀ t,
      (∀ x ∈ (purchaseTickets g TicketService.new accountId [order]).service.requests,
          x.type ≠ t) →
        (purchaseTickets g TicketService.new accountId [order]).service.getNoOfTickets t = 0) ∧
    (validateMinimumNoOfAdultTicket (purchaseTickets g TicketService.new accountId [order]).service
        = .ok () ↔
      1 ≤ (purchaseTickets g TicketService.new accountId [order]).service.getNoOfTickets
            "ADULT") ∧
    (validateInfantTicket (purchaseTickets g TicketService.new accountId [order]).service
        = .ok () ↔
      (purchaseTickets g TicketService.new accountId [order]).service.getNoOfTickets "INFANT"
        ≤ (purchaseTickets g TicketService.new accountId [order]).service.getNoOfTickets
            "ADULT") ∧
    (purchaseTickets g TicketService.new accountId [order]).calls
      = if (purchaseTickets g TicketService.new accountId [order]).service.getNoOfTickets
              "ADULT" < 1
            ∨ 20 < totalTickets order
            ∨ (purchaseTickets g TicketService.new accountId [order]).service.getNoOfTickets
                "ADULT"
              < (purchaseTickets g TicketService.new accountId [order]).service.getNoOfTickets
                "INFANT" then
          []
        else
          match g.makePayment accountId
              ((purchaseTickets g TicketService.new accountId [order]).service.getNoOfTickets
                  "ADULT" * 20
                + (purchaseTickets g TicketService.new accountId [order]).service.getNoOfTickets
                    "CHILD" * 5) with
          | .error _ =>
            [.makePayment accountId
              ((purchaseTickets g TicketService.new accountId [order]).service.getNoOfTickets
                  "ADULT" * 20
                + (purchaseTickets g TicketService.new accountId [order]).service.getNoOfTickets
                    "CHILD" * 5)]
          | .ok () =>
            [.makePayment accountId
              ((purchaseTickets g TicketService.new accountId [order]).service.getNoOfTickets
                  "ADULT" * 20
                + (purchaseTickets g TicketService.new accountId [order]).service.getNoOfTickets
                    "CHILD" * 5),
             .reserveSeat accountId
              ((purchaseTickets g TicketService.new accountId [order]).service.getNoOfTickets
                  "ADULT"
                + (purchaseTickets g TicketService.new accountId [order]).service.getNoOfTickets
                    "CHILD")] := by
  obtain ⟨hs, _⟩ := purchaseTickets_service_calls g TicketService.new accountId order []
  have hreq : (purchaseTickets g TicketService.new accountId [order]).service
      = { requests := order.map toRequest, accountId := accountId } := by
    rw [hs, pushRequests_recognised _ _ hrec]
    simp [TicketService.new]
  refine ⟨by rw [hreq], ?_, ?_, ?_, ?_, ?_⟩
  · intro t pre r post hdec hpre hr
    rw [hreq] at hdec ⊢
    simp only at hdec
    rw [hdec]
    exact getNoOfTickets_append_cons accountId t pre post r hpre hr
  · intro t hnone
    rw [hreq] at hnone ⊢
    exact getNoOfTickets_of_not_mem accountId t _ hnone
  · simp only [validateMinimumNoOfAdultTicket, minAdultTicket]
    split_ifs with h0 h1
    · simp [h0]
    · simp only [reduceCtorEq, false_iff, not_le]
      exact h1
    · simp only [true_iff]
      omega
  · simp only [validateInfantTicket]
    split_ifs with h0
    · simp only [reduceCtorEq, false_iff, not_le]
      exact h0
    · simp only [true_iff]
      omega
  · simp only [hreq, getNoOfTickets_map_toRequest]
    rw [purchaseTickets_new g _ order [] hrec, validateRequest_map_toRequest]
    simp only [mul_zero, add_zero]
    by_cases h0 : firstCount "ADULT" order = 0
    · simp [h0]
    · by_cases h1 : firstCount "ADULT" order < 1
      · simp [h0, h1]
      · by_cases h2 : 20 < totalTickets order
        · simp [h0, h1, h2]
        · by_cases h3 : firstCount "ADULT" order < firstCount "INFANT" order
          · simp [h0, h1, h2, h3]
          · simp only [h0, h1, h2, h3, if_false, or_self]
            cases hpay : g.makePayment accountId
                (firstCount "ADULT" order * 20 + firstCount "CHILD" order * 5) with
            | error e => rfl
            | ok u =>
              cases hres : g.reserveSeat accountId
                  (firstCount "ADULT" order + firstCount "CHILD" order) with
              | error e => rfl
              | ok u1 => rfl

/-- Witness of C12: of the order `[{ADULT,1},{ADULT,5}]` the count read for ADULT is 1, the
amount paid 20 and the number of seats reserved 1. -/
theorem getNoOfTickets_first_match_witness :
    (purchaseTickets Collaborators.accepting TicketService.new (.number 1)
        [[⟨"ADULT", 1⟩, ⟨"ADULT", 5⟩]]).service.getNoOfTickets "ADULT" = 1 ∧
    (purchaseTickets Collaborators.accepting TicketService.new (.number 1)
        [[⟨"ADULT", 1⟩, ⟨"ADULT", 5⟩]]).calls
      = [.makePayment (.number 1) 20, .reserveSeat (.number 1) 1] :=
  ⟨(getNoOfTickets_first_match Collaborators.accepting (.number 1)
      [⟨"ADULT", 1⟩, ⟨"ADULT", 5⟩] (by decide)).2.1 "ADULT" [] ⟨"ADULT", 1⟩ [⟨"ADULT", 5⟩]
      rfl (by simp) rfl,
    (getNoOfTickets_first_match Collaborators.accepting (.number 1)
      [⟨"ADULT", 1⟩, ⟨"ADULT", 5⟩] (by decide)).2.2.2.2.2.trans rfl⟩

/-- C13: for every instance whose stored counts are not negative, every accountId and every
arguments whose counts are not negative, each invocation `purchaseTickets` makes of the payment
collaborator passes an amount that is a multiple of 5 between 20 and 400, and each invocation of
the seat collaborator a number of seats between 1 and 20. -/
theorem collaborator_arguments_bounded (g : Collaborators) (self : TicketService)
    (accountId : JsValue) (args : List (List TicketTypeRequestInput))
    (hstored : ∀ r ∈ self.requests, 0 ≤ r.noOfTickets)
    (hsupplied : ∀ order ∈ args, ∀ e ∈ order, 0 ≤ e.noOfTickets) :
    ∀ c ∈ (purchaseTickets g self accountId args).calls,
      match c with
      | .makePayment _ amount => 5 ∣ amount ∧ 20 ≤ amount ∧ amount ≤ 400
      | .reserveSeat _ seats => 1 ≤ seats ∧ seats ≤ 20 := by
  cases args with
  | nil => intro c hc; simp [purchaseTickets] at hc
  | cons first rest =>
    obtain ⟨hs, hcalls⟩ := purchaseTickets_service_calls g self accountId first rest
    rcases hcalls with hnil | ⟨hpush, hv, hc⟩
    · intro c hc
      rw [hnil] at hc
      simp at hc
    · rcases hp : pushRequests self.requests first with ⟨r, rs⟩
      rw [hp] at hpush hs
      simp only at hpush hs
      subst hpush
      have hrs := pushRequests_ok _ _ _ hp
      have hnn : ∀ x ∈ rs, 0 ≤ x.noOfTickets := by
        intro x hx
        rw [hrs] at hx
        rcases List.mem_append.mp hx with h | h
        · exact hstored x h
        · obtain ⟨e, he, rfl⟩ := List.mem_map.mp h
          exact hsupplied first (List.mem_cons_self _ _) e he
      rw [hs] at hv hc
      obtain ⟨v1, v2, _⟩ := validateRequest_ok _ hv
      obtain ⟨b1, b2, b3, _, _⟩ :=
        getNoOfTickets_add_le accountId rs "ADULT" "CHILD" (by decide) hnn
      simp only at v2
      intro c hmem
      rcases hc with hc | hc
      · rw [hc] at hmem
        simp only [List.mem_singleton] at hmem
        subst hmem
        simp only
        omega
      · rw [hc] at hmem
        simp only [List.mem_cons, List.mem_singleton, List.not_mem_nil, or_false] at hmem
        rcases hmem with rfl | rfl
        · simp only
          omega
        · simp only
          omega

/-- Witness of C13: the order `[{ADULT,5},{INFANT,1},{CHILD,1}]` on a fresh service pays 105 and
reserves 6 seats. -/
theorem collaborator_arguments_bounded_witness :
    (Call.makePayment (.number 1) 105
        ∈ (purchaseTickets Collaborators.accepting TicketService.new (.number 1)
            [[⟨"ADULT", 5⟩, ⟨"INFANT", 1⟩, ⟨"CHILD", 1⟩]]).calls ∧
      ((5 : Int) ∣ 105 ∧ (20 : Int) ≤ 105 ∧ (105 : Int) ≤ 400)) ∧
    (Call.reserveSeat (.number 1) 6
        ∈ (purchaseTickets Collaborators.accepting TicketService.new (.number 1)
            [[⟨"ADULT", 5⟩, ⟨"INFANT", 1⟩, ⟨"CHILD", 1⟩]]).calls ∧
      ((1 : Int) ≤ 6 ∧ (6 : Int) ≤ 20)) :=
  ⟨⟨by decide,
      collaborator_arguments_bounded Collaborators.accepting TicketService.new (.number 1)
        [[⟨"ADULT", 5⟩, ⟨"INFANT", 1⟩, ⟨"CHILD", 1⟩]] (by decide) (by decide)
        (.makePayment (.number 1) 105) (by decide)⟩,
    ⟨by decide,
      collaborator_arguments_bounded Collaborators.accepting TicketService.new (.number 1)
        [[⟨"ADULT", 5⟩, ⟨"INFANT", 1⟩, ⟨"CHILD", 1⟩]] (by decide) (by decide)
        (.reserveSeat (.number 1) 6) (by decide)⟩⟩

/-- C14: for every instance whose count read for ADULT is not negative, the only exception
`#validateMinimumNoOfAdultTicket` throws is "You have to purchase at least one adult ticket", it
throws it exactly when that count is 0, and it never throws "Child and Infant tickets cannot be
purchased without purchasing an Adult ticket.": the second branch is not reached. -/
theorem validateMinimumNoOfAdultTicket_second_branch_unreachable (self : TicketService)
    (hnonneg : 0 ≤ self.getNoOfTickets "ADULT") :
    (self.validateMinimumNoOfAdultTicket
        = .error (.invalidPurchaseException "You have to purchase at least one adult ticket") ↔
      self.getNoOfTickets "ADULT" = 0) ∧
    (∀ e, self.validateMinimumNoOfAdultTicket = .error e →
      e = .invalidPurchaseException "You have to purchase at least one adult ticket") ∧
    self.validateMinimumNoOfAdultTicket
      ≠ .error (.invalidPurchaseException
          "Child and Infant tickets cannot be purchased without purchasing an Adult ticket.") := by
  simp only [validateMinimumNoOfAdultTicket, minAdultTicket]
  by_cases h0 : self.getNoOfTickets "ADULT" = 0
  · rw [if_pos h0]
    refine ⟨⟨fun _ => h0, fun _ => rfl⟩, fun e he => (Except.error.inj he).symm, fun hc => ?_⟩
    have hm := Error.invalidPurchaseException.inj (Except.error.inj hc)
    exact absurd hm (by decide)
  · have h1 : ¬ self.getNoOfTickets "ADULT" < 1 := by omega
    rw [if_neg h0, if_neg h1]
    exact ⟨⟨fun hc => (by cases hc), fun h => absurd h h0⟩, fun e he => (by cases he),
      fun hc => (by cases hc)⟩

/-- Witness of C14: with the single request `{CHILD,1}` stored, the count read for ADULT is 0 and
the exception is not the one of the second branch. -/
theorem validateMinimumNoOfAdultTicket_second_branch_unreachable_witness :
    validateMinimumNoOfAdultTicket { requests := [⟨"CHILD", 1⟩], accountId := .number 1 }
      ≠ .error (.invalidPurchaseException
          "Child and Infant tickets cannot be purchased without purchasing an Adult ticket.") :=
  (validateMinimumNoOfAdultTicket_second_branch_unreachable
    { requests := [⟨"CHILD", 1⟩], accountId := .number 1 } (by decide)).2.2

/-- C15: for every instance, every accountId, every ticket array and every list of further
arguments, `purchaseTickets(accountId, A, ...rest)` ends as `purchaseTickets(accountId, A)` does:
same result or exception, same instance afterwards, same invocations of the collaborators with
the same amount and seats. The further arguments are not looked at. -/
theorem purchaseTickets_first_argument_only (g : Collaborators) (self : TicketService)
    (accountId : JsValue) (first : List TicketTypeRequestInput)
    (rest : List (List TicketTypeRequestInput)) :
    purchaseTickets g self accountId (first :: rest) = purchaseTickets g self accountId [first] :=
  rfl

end CinemaTickets
